import Mathlib

/-!
Shallow embedding of the RoyavaletBackend service layer
(src/controllers/contactController.js, src/controllers/emailController.js,
src/models/Contact.js, src/models/EmailSubscription.js), with theorems
checking the specification claims about the subscription lifecycle, list
pagination, search matching and the statistics aggregations.

Conventions: timestamps are naturals (milliseconds since the epoch, the
value of Date.now at call time is passed as an explicit `now` argument);
the document store is a list of documents; absent/null string fields are
Option String.  Fallible HTTP handlers return an outcome record carrying
the HTTP status code, the success flag, the response message and the
resulting store.
-/

namespace Royavalet

/-- Status enum of EmailSubscription.js (field status). -/
inductive SubStatus
| active
| unsubscribed
| bounced
| complained
deriving DecidableEq, Repr

/-- Preference flags of EmailSubscription.js (field preferences); schema
defaults are all true. -/
structure Preferences where
  newsletters : Bool
  promotions : Bool
  updates : Bool
  events : Bool
deriving DecidableEq, Repr

/-- Schema defaults for preferences (every flag defaults to true). -/
def defaultPreferences : Preferences :=
  { newsletters := true, promotions := true, updates := true, events := true }

/-- A partial preferences object as sent in a request body: each key may be
present (some b) or absent (none).  Models the plain JS object
`preferences` destructured in subscribeEmail. -/
structure PrefPatch where
  newsletters : Option Bool
  promotions : Option Bool
  updates : Option Bool
  events : Option Bool
deriving DecidableEq, Repr

/-- The empty patch, modelling the default `preferences = \x7b\x7d`. -/
def PrefPatch.empty : PrefPatch :=
  { newsletters := none, promotions := none, updates := none, events := none }

/-- Models Object.keys(preferences).length > 0 being false: no key present. -/
def PrefPatch.keysEmpty (p : PrefPatch) : Bool :=
  p.newsletters.isNone && p.promotions.isNone && p.updates.isNone && p.events.isNone

/-- JS object spread of a patch over a full preferences object:
base fields survive unless the patch supplies the key. -/
def mergePrefs (base : Preferences) (p : PrefPatch) : Preferences :=
  { newsletters := p.newsletters.getD base.newsletters
    promotions := p.promotions.getD base.promotions
    updates := p.updates.getD base.updates
    events := p.events.getD base.events }

/-- Metadata subdocument of EmailSubscription.js; all fields default null. -/
structure Metadata where
  ipAddress : Option String
  userAgent : Option String
  referrer : Option String
  country : Option String
  city : Option String
deriving DecidableEq, Repr

/-- A stored EmailSubscription document (the persisted fields of
EmailSubscription.js; virtuals are computed on read, not stored). -/
structure Subscription where
  email : String
  status : SubStatus
  source : String
  subscriptionDate : Nat
  unsubscriptionDate : Option Nat
  unsubscriptionReason : Option String
  preferences : Preferences
  metadata : Metadata
  tags : List String
  emailsSent : Nat
  emailsOpened : Nat
  emailsClicked : Nat
  isVerified : Bool
  verifiedAt : Option Nat
deriving DecidableEq, Repr

/-- EmailSubscription.findOne(\x7bemail\x7d): first stored document whose email
field equals the argument. -/
def findOne (store : List Subscription) (email : String) : Option Subscription :=
  store.find? (fun s => s.email == email)

/-- The pre-save middleware of EmailSubscription.js, applied on every save.
isModified on a path is true when the document is new or the path changed
between the loaded document (before) and the document being saved (after).
It stamps verifiedAt when isVerified is being set with no verifiedAt, and
stamps unsubscriptionDate when status is being set to unsubscribed with no
unsubscriptionDate. -/
def subHookSave (isNew : Bool) (before after : Subscription) (now : Nat) : Subscription :=
  let vMod := isNew || decide (before.isVerified ≠ after.isVerified)
  let a1 := if vMod && after.isVerified && after.verifiedAt.isNone then
    { after with verifiedAt := some now } else after
  let sMod := isNew || decide (before.status ≠ after.status)
  if sMod && decide (a1.status = SubStatus.unsubscribed) && a1.unsubscriptionDate.isNone then
    { a1 with unsubscriptionDate := some now } else a1

/-- Persisting an update to a loaded document: documents are keyed by the
unique email, so the stored document with that email is replaced. -/
def replaceByEmail (store : List Subscription) (s : Subscription) : List Subscription :=
  store.map (fun r => if r.email == s.email then s else r)

/-- Outcome of an email-route handler: HTTP status code, success flag,
response message, and the store after the call. -/
structure EmailOutcome where
  statusCode : Nat
  success : Bool
  message : String
  store : List Subscription
deriving DecidableEq, Repr

/-- The document constructed by `new EmailSubscription(...)` in
subscribeEmail: given preferences spread over the all-true defaults,
request metadata captured, auto-verified, schema defaults elsewhere. -/
def newSubscription (email source : String) (prefs : PrefPatch)
    (ip ua referrer : Option String) (now : Nat) : Subscription :=
  { email := email
    status := SubStatus.active
    source := source
    subscriptionDate := now
    unsubscriptionDate := none
    unsubscriptionReason := none
    preferences := mergePrefs defaultPreferences prefs
    metadata := { ipAddress := ip, userAgent := ua, referrer := referrer,
                  country := none, city := none }
    tags := []
    emailsSent := 0
    emailsOpened := 0
    emailsClicked := 0
    isVerified := true
    verifiedAt := some now }

/-- The create-new-subscription tail of subscribeEmail.  The unique index on
email makes the store reject the insert when a document with that email
already exists at save time; `raced` holds documents inserted concurrently
between the findOne read and the save, so the uniqueness check runs against
store ++ raced.  The surrounding try/catch has no duplicate-key case, so a
rejected insert falls into the generic 500 handler. -/
def subscribeCreate (store raced : List Subscription) (email source : String)
    (prefs : PrefPatch) (ip ua referrer : Option String) (now : Nat) : EmailOutcome :=
  let s0 := newSubscription email source prefs ip ua referrer now
  let sub := subHookSave true s0 s0 now
  if (store ++ raced).any (fun r => r.email == email) then
    { statusCode := 500, success := false
      message := "Failed to subscribe. Please try again later."
      store := store ++ raced }
  else
    { statusCode := 201, success := true
      message := "Thank you for subscribing! You will receive our latest updates and offers."
      store := store ++ raced ++ [sub] }

/-- subscribeEmail of emailController.js.  findOne runs against `store`;
`raced` holds documents inserted concurrently before the save (empty in the
sequential case).  An active existing document is a 409 conflict; an
unsubscribed one is reactivated in place; any other existing status
(bounced, complained) falls through to the create path. -/
def subscribeEmail (store raced : List Subscription) (email source : String)
    (prefs : PrefPatch) (ip ua referrer : Option String) (now : Nat) : EmailOutcome :=
  match findOne store email with
  | some ex =>
    if ex.status = SubStatus.active then
      { statusCode := 409, success := false
        message := "This email is already subscribed to our newsletter"
        store := store ++ raced }
    else if ex.status = SubStatus.unsubscribed then
      let ex1 := { ex with
        status := SubStatus.active
        subscriptionDate := now
        unsubscriptionDate := none
        unsubscriptionReason := none
        source := source
        metadata := { ex.metadata with ipAddress := ip, userAgent := ua, referrer := referrer } }
      let ex2 := if prefs.keysEmpty then ex1
        else { ex1 with preferences := mergePrefs ex1.preferences prefs }
      let saved := subHookSave false ex ex2 now
      { statusCode := 200, success := true
        message := "Welcome back! Your email subscription has been reactivated."
        store := replaceByEmail store saved ++ raced }
    else
      subscribeCreate store raced email source prefs ip ua referrer now
  | none => subscribeCreate store raced email source prefs ip ua referrer now

/-- unsubscribeEmail of emailController.js.  The reason defaults through the
JS expression `reason or-else "User requested"`, whose string falsy case is
the empty string. -/
def unsubscribeEmail (store : List Subscription) (email : String)
    (reason : Option String) (now : Nat) : EmailOutcome :=
  match findOne store email with
  | none =>
    { statusCode := 404, success := false
      message := "Email not found in our subscription list", store := store }
  | some sub =>
    if sub.status = SubStatus.unsubscribed then
      { statusCode := 400, success := false
        message := "This email is already unsubscribed", store := store }
    else
      let r := match reason with
        | none => "User requested"
        | some s => if s.isEmpty then "User requested" else s
      let sub1 := { sub with
        status := SubStatus.unsubscribed
        unsubscriptionDate := some now
        unsubscriptionReason := some r }
      let saved := subHookSave false sub sub1 now
      { statusCode := 200, success := true
        message := "You have been successfully unsubscribed from our mailing list"
        store := replaceByEmail store saved }

/-- A note subdocument of Contact.js (fields note, addedBy, addedAt). -/
structure ContactNote where
  note : String
  addedBy : String
  addedAt : Nat
deriving DecidableEq, Repr

/-- A stored Contact document (the persisted fields of Contact.js; the
enum-valued status and priority fields are strings as stored). -/
structure Contact where
  name : String
  email : String
  phone : String
  description : String
  status : String
  priority : String
  source : String
  ipAddress : Option String
  userAgent : Option String
  notes : List ContactNote
  createdAt : Nat
deriving DecidableEq, Repr

/-- The pre-save middleware of Contact.js: on a new document it appends the
system note recording the source. -/
def contactPreSave (isNew : Bool) (c : Contact) (now : Nat) : Contact :=
  if isNew then
    { c with notes := c.notes ++
        [{ note := "Contact form submitted from " ++ c.source
           addedBy := "system", addedAt := now }] }
  else c

/-- Outcome of a contact-route handler; data carries the saved document the
response body reports on creation. -/
structure ContactOutcome where
  statusCode : Nat
  success : Bool
  message : String
  store : List Contact
  data : Option Contact
deriving DecidableEq, Repr

/-- Milliseconds in 24 hours, the duplicate-contact window. -/
def msDay : Nat := 86400000

/-- createContact of contactController.js: rejects with 409 when a contact
with the same email has createdAt within the trailing 24 hours (createdAt
at least now minus 24h, written additively to avoid natural truncation),
otherwise saves a new document with source website, empty notes before the
pre-save hook, and returns 201. -/
def createContact (store : List Contact) (name email phone description : String)
    (ip ua : Option String) (now : Nat) : ContactOutcome :=
  match store.find? (fun c => c.email == email && now ≤ c.createdAt + msDay) with
  | some _ =>
    { statusCode := 409, success := false
      message := "A contact request with this email was already submitted in the last 24 hours"
      store := store, data := none }
  | none =>
    let c0 : Contact :=
      { name := name, email := email, phone := phone, description := description
        status := "new", priority := "medium", source := "website"
        ipAddress := ip, userAgent := ua, notes := [], createdAt := now }
    let c := contactPreSave true c0 now
    { statusCode := 201, success := true
      message := "Contact request submitted successfully! We will get back to you soon."
      store := store ++ [c], data := some c }

/-! Query-string parsing and pagination, shared by getContacts and
getSubscriptions. -/

/-- Longest leading run of decimal digits. -/
def leadingDigits (cs : List Char) : List Char :=
  cs.takeWhile (fun c => c.isDigit)

/-- Numeric value of a digit run, most significant digit first. -/
def digitsToNat (ds : List Char) : Nat :=
  ds.foldl (fun a c => a * 10 + (c.toNat - 48)) 0

/-- Decimal fragment of the JS parseInt applied to an optional query
parameter: none models NaN, produced for an absent parameter or a value
with no leading digits after optional whitespace and sign.  The
hexadecimal-prefix form of parseInt is outside the modelled fragment. -/
def jsParseInt (q : Option String) : Option Int :=
  match q with
  | none => none
  | some s =>
    let cs := s.data.dropWhile (fun c => c == ' ' || c == '\t' || c == '\n' || c == '\r')
    let signed : Int × List Char :=
      match cs with
      | '-' :: r => (-1, r)
      | '+' :: r => (1, r)
      | r => (1, r)
    let ds := leadingDigits signed.2
    if ds.isEmpty then none else some (signed.1 * digitsToNat ds)

/-- The JS defaulting idiom parseInt(x) or-else d: NaN and 0 are falsy and
fall back to the default. -/
def jsOr (v : Option Int) (d : Int) : Int :=
  match v with
  | none => d
  | some n => if n = 0 then d else n

/-- Parsed page parameter: parseInt(req.query.page) or-else 1. -/
def parsePage (q : Option String) : Int := jsOr (jsParseInt q) 1

/-- Parsed limit parameter: parseInt(req.query.limit) or-else 10. -/
def parseLimit (q : Option String) : Int := jsOr (jsParseInt q) 10

/-- Mongo skip and limit cursor modifiers over the sorted match set. -/
def skipTake {α : Type} (docs : List α) (skip lim : Nat) : List α :=
  (docs.drop skip).take lim

/-- Math.ceil(total / limit) for a positive limit, as computed for the
pages field of the pagination metadata. -/
def totalPages (total lim : Nat) : Nat := (total + lim - 1) / lim

/-! Search matching.  The controllers pass the raw search term to the store
as a case-insensitive $regex.  The store side is modelled for the fragment
of patterns built from literal characters and the dot metacharacter, which
matches any single character. -/

/-- Store evaluation of a regex pattern against a prefix of the string, for
patterns made of literal characters and the dot metacharacter. -/
def regexMatchAt : List Char → List Char → Bool
  | [], _ => true
  | _ :: _, [] => false
  | p :: ps, c :: cs => (p == '.' || p == c) && regexMatchAt ps cs

/-- Unanchored regex search: the pattern matches at some position. -/
def regexFound : List Char → List Char → Bool
  | pat, [] => regexMatchAt pat []
  | pat, c :: cs => regexMatchAt pat (c :: cs) || regexFound pat cs

/-- Case folding of the i option applied to both pattern and field. -/
def lowerChars (s : String) : List Char := s.data.map Char.toLower

/-- The store evaluating field matching for $regex with option i. -/
def regexTest (pat field : String) : Bool :=
  regexFound (lowerChars pat) (lowerChars field)

/-- Literal prefix matching: every pattern character matches only itself. -/
def litMatchAt : List Char → List Char → Bool
  | [], _ => true
  | _ :: _, [] => false
  | p :: ps, c :: cs => p == c && litMatchAt ps cs

/-- Literal unanchored search: the pattern occurs as a contiguous substring. -/
def litFound : List Char → List Char → Bool
  | pat, [] => litMatchAt pat []
  | pat, c :: cs => litMatchAt pat (c :: cs) || litFound pat cs

/-- Modelled from the spec: case-insensitive literal substring matching,
what an escaped search term would match. -/
def literalTest (pat field : String) : Bool :=
  litFound (lowerChars pat) (lowerChars field)

/-- String form of the stored subscription status enum. -/
def SubStatus.toStr : SubStatus → String
  | .active => "active"
  | .unsubscribed => "unsubscribed"
  | .bounced => "bounced"
  | .complained => "complained"

/-- The filter document built by getSubscriptions: equality on status and
source when given, and the raw search term as a case-insensitive regex on
email. -/
def subMatches (statusQ sourceQ searchQ : Option String) (s : Subscription) : Bool :=
  (match statusQ with
   | none => true
   | some st => s.status.toStr == st) &&
  (match sourceQ with
   | none => true
   | some so => s.source == so) &&
  (match searchQ with
   | none => true
   | some t => regexTest t s.email)

/-- The filter document built by getContacts: equality on status and
priority when given, and the raw search term as a case-insensitive regex
or-matched over name, email and phone. -/
def contactMatches (statusQ priorityQ searchQ : Option String) (c : Contact) : Bool :=
  (match statusQ with
   | none => true
   | some st => c.status == st) &&
  (match priorityQ with
   | none => true
   | some pr => c.priority == pr) &&
  (match searchQ with
   | none => true
   | some t => regexTest t c.name || regexTest t c.email || regexTest t c.phone)

/-- Response of a list endpoint: page of documents plus the pagination
metadata current/pages/total/limit. -/
structure ListOutcome (α : Type) where
  data : List α
  current : Int
  pages : Nat
  total : Nat
  limit : Int
deriving Repr

/-- getSubscriptions of emailController.js: defaulted parse of page and
limit, filter, sort by subscriptionDate descending, skip (page-1)*limit,
take limit, and pagination metadata with Math.ceil(total/limit).  The
modelled fragment is page at least 1 and limit at least 1, the range the
claims exercise; toNat clamps are identities there. -/
def getSubscriptions (store : List Subscription)
    (pageQ limitQ statusQ sourceQ searchQ : Option String) : ListOutcome Subscription :=
  let page := parsePage pageQ
  let lim := parseLimit limitQ
  let matched := store.filter (subMatches statusQ sourceQ searchQ)
  let sorted := matched.mergeSort (fun a b => decide (b.subscriptionDate ≤ a.subscriptionDate))
  { data := skipTake sorted ((page - 1) * lim).toNat lim.toNat
    current := page
    pages := totalPages matched.length lim.toNat
    total := matched.length
    limit := lim }

/-- getContacts of contactController.js: same list pipeline over contacts,
sorted by createdAt descending. -/
def getContacts (store : List Contact)
    (pageQ limitQ statusQ priorityQ searchQ : Option String) : ListOutcome Contact :=
  let page := parsePage pageQ
  let lim := parseLimit limitQ
  let matched := store.filter (contactMatches statusQ priorityQ searchQ)
  let sorted := matched.mergeSort (fun a b => decide (b.createdAt ≤ a.createdAt))
  { data := skipTake sorted ((page - 1) * lim).toNat lim.toNat
    current := page
    pages := totalPages matched.length lim.toNat
    total := matched.length
    limit := lim }

/-! Statistics aggregations. -/

/-- Mongo $group by a key with a count accumulator summing 1: one output
element per distinct key value present in the input, carrying the number
of documents with that key.  The store reports the groups in unspecified
order; the model lists keys in first-seen order. -/
def groupCounts {K : Type} [DecidableEq K] (keys : List K) : List (K × Nat) :=
  keys.dedup.map (fun k => (k, keys.count k))

/-- The byStatus aggregation of getContactStats. -/
def contactStatsByStatus (store : List Contact) : List (String × Nat) :=
  groupCounts (store.map (fun c => c.status))

/-- The byPriority aggregation of getContactStats. -/
def contactStatsByPriority (store : List Contact) : List (String × Nat) :=
  groupCounts (store.map (fun c => c.priority))

/-- The getStats static of EmailSubscription.js: group by status. -/
def subStatsByStatus (store : List Subscription) : List (SubStatus × Nat) :=
  groupCounts (store.map (fun s => s.status))

/-- The bySource aggregation of getEmailStats. -/
def subStatsBySource (store : List Subscription) : List (String × Nat) :=
  groupCounts (store.map (fun s => s.source))

/-- The engagementRate virtual of EmailSubscription.js: 0 when emailsSent
is 0, otherwise Math.round of 100 * emailsOpened / emailsSent.  For
nonnegative operands Math.round(x) is the floor of x + 1/2, here written
over naturals. -/
def engagementRate (s : Subscription) : Nat :=
  if s.emailsSent = 0 then 0
  else (200 * s.emailsOpened + s.emailsSent) / (2 * s.emailsSent)

/-- Value of the engagementRate path on a stored document as the
aggregation pipeline reads it: engagementRate is a schema virtual computed
on document read, not a persisted field, so the path is missing on every
stored document. -/
def storedEngagementRate (_s : Subscription) : Option ℚ := none

/-- Mongo $avg accumulator: ignores missing and non-numeric values and
yields null when no numeric value occurs. -/
def aggAvg (vals : List (Option ℚ)) : Option ℚ :=
  let nums := vals.filterMap id
  if nums.isEmpty then none else some (nums.sum / nums.length)

/-- The engagement group of getEmailStats; avgEngagementRate is none for
the null the store returns. -/
structure EngagementSummary where
  totalEmailsSent : Nat
  totalEmailsOpened : Nat
  totalEmailsClicked : Nat
  avgEngagementRate : Option ℚ
deriving DecidableEq, Repr

/-- The engagement aggregation of getEmailStats: match status active,
group with sums over the counter fields and $avg over the engagementRate
path, then engagementStats[0] or-else the all-zero fallback object.  An
empty match set produces no group, so the fallback is taken. -/
def engagementStats (store : List Subscription) : EngagementSummary :=
  let m := store.filter (fun s => s.status == SubStatus.active)
  if m.isEmpty then
    { totalEmailsSent := 0, totalEmailsOpened := 0, totalEmailsClicked := 0
      avgEngagementRate := some 0 }
  else
    { totalEmailsSent := (m.map (fun s => s.emailsSent)).sum
      totalEmailsOpened := (m.map (fun s => s.emailsOpened)).sum
      totalEmailsClicked := (m.map (fun s => s.emailsClicked)).sum
      avgEngagementRate := aggAvg (m.map storedEngagementRate) }

/-- Modelled from the spec claim wording: an engagement summary over the
active-and-verified rows, summing the counters and taking the mean of the
derived engagementRate of each row, all zero when no row is eligible. -/
def claimedEngagementStats (store : List Subscription) : EngagementSummary :=
  let m := store.filter (fun s => s.status == SubStatus.active && s.isVerified)
  if m.isEmpty then
    { totalEmailsSent := 0, totalEmailsOpened := 0, totalEmailsClicked := 0
      avgEngagementRate := some 0 }
  else
    { totalEmailsSent := (m.map (fun s => s.emailsSent)).sum
      totalEmailsOpened := (m.map (fun s => s.emailsOpened)).sum
      totalEmailsClicked := (m.map (fun s => s.emailsClicked)).sum
      avgEngagementRate :=
        some ((m.map (fun s => (engagementRate s : ℚ))).sum / m.length) }

/-! Concrete sample documents used to evaluate the definitions on closed
inputs. -/

/-- A sample active subscription document. -/
def wSubA : Subscription :=
  { email := "a@b.com", status := SubStatus.active, source := "website-footer"
    subscriptionDate := 0, unsubscriptionDate := none, unsubscriptionReason := none
    preferences := defaultPreferences
    metadata := { ipAddress := none, userAgent := none, referrer := none
                  country := none, city := none }
    tags := [], emailsSent := 0, emailsOpened := 0, emailsClicked := 0
    isVerified := true, verifiedAt := some 0 }

/-- A sample unsubscribed subscription document with one preference off. -/
def wSubU : Subscription :=
  { wSubA with
    email := "u@x.de"
    status := SubStatus.unsubscribed
    unsubscriptionDate := some 3
    unsubscriptionReason := some "User requested"
    preferences := { newsletters := false, promotions := true, updates := true
                     events := true } }

/-- A sample bounced subscription document. -/
def wSubBounced : Subscription :=
  { wSubA with email := "b@c.com", status := SubStatus.bounced }

/-- A sample active subscription used as a concurrently inserted document. -/
def wSubC : Subscription :=
  { wSubA with email := "c@d.com" }

/-- A sample active but unverified subscription with engagement counters. -/
def wSubUnverified : Subscription :=
  { wSubA with
    email := "e@f.com"
    isVerified := false
    emailsSent := 50
    emailsOpened := 10 }

/-- A sample subscription whose email matches the dot regex but not the
literal term. -/
def wSubSearch : Subscription :=
  { wSubA with email := "abc@xyz.de" }

/-- A sample contact document. -/
def wContact1 : Contact :=
  { name := "Ann Smith", email := "ann@x.de", phone := "1234567890"
    description := "Need valet parking", status := "new", priority := "medium"
    source := "website", ipAddress := none, userAgent := none, notes := []
    createdAt := 100 }

/-- A second sample contact document with the same status. -/
def wContact2 : Contact :=
  { wContact1 with email := "bob@x.de" }

/-- A sample subscription store entry parameterised by its date. -/
def sampleSub (i : Nat) : Subscription :=
  { wSubA with email := "user@mail.de", subscriptionDate := i }

/-- A store of 25 subscription documents for the pagination example. -/
def sampleStore : List Subscription := (List.range 25).map sampleSub

/-! Helper lemmas. -/

lemma findOne_email {store : List Subscription} {e : String} {s : Subscription}
    (h : findOne store e = some s) : s.email = e := by
  unfold findOne at h
  have hp := List.find?_some h
  exact eq_of_beq hp

lemma findOne_mem {store : List Subscription} {e : String} {s : Subscription}
    (h : findOne store e = some s) : s ∈ store := by
  unfold findOne at h
  exact List.mem_of_find?_eq_some h

lemma findOne_replaceByEmail (store : List Subscription) (s : Subscription) (e : String)
    (hs : s.email = e) (h : (findOne store e).isSome) :
    findOne (replaceByEmail store s) e = some s := by
  induction store with
  | nil => simp [findOne] at h
  | cons r t ih =>
    have hmap : replaceByEmail (r :: t) s =
        (if r.email == s.email then s else r) :: replaceByEmail t s := rfl
    by_cases hr : r.email = e
    · have hhead : (if r.email == s.email then s else r) = s := by
        have hb : (r.email == s.email) = true := by simp [hs, hr]
        simp [hb]
      rw [hmap, hhead]
      unfold findOne
      apply List.find?_cons_of_pos
      simp [hs]
    · have hhead : (if r.email == s.email then s else r) = r := by
        have hb : (r.email == s.email) = false := by
          simp only [beq_eq_false_iff_ne, ne_eq, hs]
          exact hr
        simp [hb]
      have h2 : (findOne t e).isSome := by
        unfold findOne at h ⊢
        rwa [List.find?_cons_of_neg _ (by simp [hr])] at h
      rw [hmap, hhead]
      unfold findOne
      rw [List.find?_cons_of_neg _ (by simp [hr])]
      exact ih h2

lemma keysEmpty_merge (b : Preferences) (p : PrefPatch) (hp : p.keysEmpty = true) :
    mergePrefs b p = b := by
  unfold PrefPatch.keysEmpty at hp
  simp only [Bool.and_eq_true, Option.isNone_iff_eq_none] at hp
  obtain ⟨⟨⟨h1, h2⟩, h3⟩, h4⟩ := hp
  simp [mergePrefs, h1, h2, h3, h4]

/-- C5: a subscribe call for an email whose stored record is active is
rejected with the 409 conflict response and performs no mutation: the
resulting store is exactly the store before the call. -/
theorem subscribe_active_conflict_no_mutation
    (store : List Subscription) (e src : String) (prefs : PrefPatch)
    (ip ua ref : Option String) (now : Nat) (ex : Subscription)
    (hfind : findOne store e = some ex) (hactive : ex.status = SubStatus.active) :
    subscribeEmail store [] e src prefs ip ua ref now =
      { statusCode := 409, success := false
        message := "This email is already subscribed to our newsletter"
        store := store } := by
  unfold subscribeEmail
  rw [hfind]
  simp [hactive]

/-- C1 amended: an existing record is reactivated by subscribe exactly when
its status is unsubscribed: then status becomes active, subscriptionDate is
reset to now, the unsubscription fields are cleared, source and the request
metadata are overwritten, supplied preferences are merged over the existing
ones (fields not supplied are preserved), engagement counters and tags are
preserved, and the response is the 200 reactivated outcome.  For the other
non-active statuses (bounced, complained) the call falls through to the
insert path, which the unique email index rejects, so the handler returns
the generic 500 failure and the store is unchanged. -/
theorem subscribe_reactivation
    (store : List Subscription) (e src : String) (prefs : PrefPatch)
    (ip ua ref : Option String) (now : Nat) (ex : Subscription)
    (hfind : findOne store e = some ex) :
    (ex.status = SubStatus.unsubscribed →
      (subscribeEmail store [] e src prefs ip ua ref now).statusCode = 200 ∧
      (subscribeEmail store [] e src prefs ip ua ref now).success = true ∧
      ∃ saved, findOne (subscribeEmail store [] e src prefs ip ua ref now).store e = some saved ∧
        saved.status = SubStatus.active ∧
        saved.subscriptionDate = now ∧
        saved.unsubscriptionDate = none ∧
        saved.unsubscriptionReason = none ∧
        saved.source = src ∧
        saved.metadata.ipAddress = ip ∧
        saved.metadata.userAgent = ua ∧
        saved.metadata.referrer = ref ∧
        saved.preferences = mergePrefs ex.preferences prefs ∧
        (prefs.newsletters = none →
          saved.preferences.newsletters = ex.preferences.newsletters) ∧
        (prefs.promotions = none →
          saved.preferences.promotions = ex.preferences.promotions) ∧
        (prefs.updates = none → saved.preferences.updates = ex.preferences.updates) ∧
        (prefs.events = none → saved.preferences.events = ex.preferences.events) ∧
        saved.emailsSent = ex.emailsSent ∧
        saved.emailsOpened = ex.emailsOpened ∧
        saved.emailsClicked = ex.emailsClicked ∧
        saved.tags = ex.tags) ∧
    ((ex.status = SubStatus.bounced ∨ ex.status = SubStatus.complained) →
      subscribeEmail store [] e src prefs ip ua ref now =
        { statusCode := 500, success := false
          message := "Failed to subscribe. Please try again later."
          store := store }) := by
  have hmem : ex ∈ store := findOne_mem hfind
  have hemail : ex.email = e := findOne_email hfind
  constructor
  · intro hunsub
    unfold subscribeEmail
    rw [hfind]
    have hne : ex.status ≠ SubStatus.active := by rw [hunsub]; decide
    set ex1 : Subscription := { ex with
      status := SubStatus.active
      subscriptionDate := now
      unsubscriptionDate := none
      unsubscriptionReason := none
      source := src
      metadata := { ex.metadata with ipAddress := ip, userAgent := ua, referrer := ref } } with hex1
    set ex2 : Subscription := if prefs.keysEmpty then ex1
      else { ex1 with preferences := mergePrefs ex1.preferences prefs } with hex2
    have hprefs2 : ex2.preferences = mergePrefs ex.preferences prefs := by
      rw [hex2]
      by_cases hk : prefs.keysEmpty = true
      · simp [hk, hex1, keysEmpty_merge _ _ hk]
      · simp at hk
        simp [hk, hex1]
    have hsave : subHookSave false ex ex2 now = ex2 := by
      have hv : ex2.isVerified = ex.isVerified := by
        rw [hex2]; by_cases hk : prefs.keysEmpty = true <;> simp [hk, hex1]
      have hst : ex2.status = SubStatus.active := by
        rw [hex2]; by_cases hk : prefs.keysEmpty = true <;> simp [hk, hex1]
      unfold subHookSave
      simp [hv, hst]
    simp only [hne, hunsub, if_false, if_true, reduceIte]
    refine ⟨rfl, rfl, ex2, ?_, ?_, ?_, ?_, ?_, ?_, ?_, ?_, ?_, hprefs2, ?_, ?_, ?_, ?_, ?_, ?_, ?_, ?_⟩
    · have hisSome : (findOne store e).isSome := by rw [hfind]; rfl
      have he2 : ex2.email = e := by
        rw [hex2]
        by_cases hk : prefs.keysEmpty = true <;> simp [hk, hex1, hemail]
      simpa [hsave] using findOne_replaceByEmail store (subHookSave false ex ex2 now) e
        (by rw [hsave]; exact he2) hisSome
    all_goals
      rw [hex2]
      by_cases hk : prefs.keysEmpty = true <;>
        simp [hk, hex1, keysEmpty_merge, mergePrefs] <;>
        intro h <;> simp [h]
  · intro hbc
    have hne : ex.status ≠ SubStatus.active := by
      rcases hbc with h | h <;> rw [h] <;> decide
    have hne2 : ex.status ≠ SubStatus.unsubscribed := by
      rcases hbc with h | h <;> rw [h] <;> decide
    have hdup : (store.any fun r => r.email == e) = true := by
      rw [List.any_eq_true]
      exact ⟨ex, hmem, by simp [hemail]⟩
    unfold subscribeEmail
    rw [hfind]
    simp only [hne, hne2, if_false, reduceIte]
    unfold subscribeCreate
    simp [hdup]

/-- C2 amended: when the insert of a new subscription document is rejected
by the unique email index (because a concurrent call inserted the same
email between the findOne read and the save), the blanket catch handler of
subscribeEmail returns the generic 500 internal failure, not the 409
already-subscribed conflict, and the insert does not go through. -/
theorem subscribe_duplicate_insert_is_500
    (store raced : List Subscription) (e src : String) (prefs : PrefPatch)
    (ip ua ref : Option String) (now : Nat)
    (hfind : findOne store e = none)
    (hdup : (raced.any fun r => r.email == e) = true) :
    subscribeEmail store raced e src prefs ip ua ref now =
      { statusCode := 500, success := false
        message := "Failed to subscribe. Please try again later."
        store := store ++ raced } ∧
    (subscribeEmail store raced e src prefs ip ua ref now).statusCode ≠ 409 := by
  have hdup2 : ((store ++ raced).any fun r => r.email == e) = true := by
    rw [List.any_append, hdup, Bool.or_true]
  unfold subscribeEmail
  rw [hfind]
  unfold subscribeCreate
  simp [hdup2]

/-- C9 amended: unsubscribe returns 404 when no record exists for the
email; returns 400 and leaves the store unchanged when the record is
already unsubscribed; otherwise it marks the record unsubscribed, stamps
unsubscriptionDate to now, and stores the given reason when it is
nonempty, falling back to the default User requested when the reason is
omitted or is the empty string. -/
theorem unsubscribe_behaviour
    (store : List Subscription) (e : String) (reason : Option String) (now : Nat) :
    (findOne store e = none →
      unsubscribeEmail store e reason now =
        { statusCode := 404, success := false
          message := "Email not found in our subscription list", store := store }) ∧
    (∀ sub, findOne store e = some sub → sub.status = SubStatus.unsubscribed →
      unsubscribeEmail store e reason now =
        { statusCode := 400, success := false
          message := "This email is already unsubscribed", store := store }) ∧
    (∀ sub, findOne store e = some sub → sub.status ≠ SubStatus.unsubscribed →
      (unsubscribeEmail store e reason now).statusCode = 200 ∧
      ∃ saved, findOne (unsubscribeEmail store e reason now).store e = some saved ∧
        saved.status = SubStatus.unsubscribed ∧
        saved.unsubscriptionDate = some now ∧
        ((reason = none ∨ reason = some "") →
          saved.unsubscriptionReason = some "User requested") ∧
        (∀ r, reason = some r → r ≠ "" →
          saved.unsubscriptionReason = some r)) := by
  refine ⟨?_, ?_, ?_⟩
  · intro hfind
    unfold unsubscribeEmail
    rw [hfind]
  · intro sub hfind hst
    unfold unsubscribeEmail
    rw [hfind]
    simp [hst]
  · intro sub hfind hst
    have hemail : sub.email = e := findOne_email hfind
    have hisSome : (findOne store e).isSome := by rw [hfind]; rfl
    have hsave : ∀ rsn : String,
        subHookSave false sub
          { sub with
            status := SubStatus.unsubscribed
            unsubscriptionDate := some now
            unsubscriptionReason := some rsn } now =
          { sub with
            status := SubStatus.unsubscribed
            unsubscriptionDate := some now
            unsubscriptionReason := some rsn } := by
      intro rsn
      unfold subHookSave
      simp
    have hout : unsubscribeEmail store e reason now =
        { statusCode := 200, success := true
          message := "You have been successfully unsubscribed from our mailing list"
          store := replaceByEmail store { sub with
            status := SubStatus.unsubscribed
            unsubscriptionDate := some now
            unsubscriptionReason := some (match reason with
              | none => "User requested"
              | some s => if s.isEmpty then "User requested" else s) } } := by
      unfold unsubscribeEmail
      rw [hfind]
      simp only [hst, reduceIte, if_neg]
      rw [hsave]
    rw [hout]
    refine ⟨rfl, _, findOne_replaceByEmail store _ e hemail hisSome, rfl, rfl, ?_, ?_⟩
    · rintro (hr | hr) <;> subst hr <;> rfl
    · intro s hr hs
      subst hr
      have hf : s.isEmpty = false := by
        rcases Bool.eq_false_or_eq_true s.isEmpty with h | h
        · exact absurd ((String.isEmpty_iff s).mp h) hs
        · exact h
      simp [hf]

/-- C8: every contact created through createContact carries exactly one
note at creation, authored by system, whose text records the source field
of the contact. -/
theorem createContact_single_system_note
    (store : List Contact) (name email phone description : String)
    (ip ua : Option String) (now : Nat)
    (hnew : store.find? (fun c => c.email == email && now ≤ c.createdAt + msDay) = none) :
    ∃ c, (createContact store name email phone description ip ua now).data = some c ∧
      (createContact store name email phone description ip ua now).store = store ++ [c] ∧
      c.notes.length = 1 ∧
      ∀ nt ∈ c.notes, nt.addedBy = "system" ∧
        nt.note = "Contact form submitted from " ++ c.source := by
  unfold createContact
  rw [hnew]
  refine ⟨_, rfl, rfl, rfl, ?_⟩
  intro nt hnt
  simp [contactPreSave] at hnt
  simp [hnt, contactPreSave]

/-! Pagination and search theorems. -/

lemma filter_subMatches_none (store : List Subscription) :
    store.filter (subMatches none none none) = store :=
  List.filter_eq_self.mpr (fun _ _ => rfl)

lemma filter_contactMatches_none (store : List Contact) :
    store.filter (contactMatches none none none) = store :=
  List.filter_eq_self.mpr (fun _ _ => rfl)

lemma totalPages_eq_ceil (t l : Nat) (hl : 0 < l) :
    totalPages t l = ⌈(t : ℚ) / (l : ℚ)⌉₊ := by
  have hc : totalPages t l = t ⌈/⌉ l := (Nat.ceilDiv_eq_add_pred_div t l).symm
  rw [hc]
  refine eq_of_forall_ge_iff (fun c => ?_)
  rw [ceilDiv_le_iff_le_mul hl, Nat.ceil_le,
    div_le_iff₀ (by exact_mod_cast hl), mul_comm (l : ℕ) c]
  exact_mod_cast Iff.rfl

lemma totalPages_zero (l : Nat) (hl : 0 < l) : totalPages 0 l = 0 := by
  unfold totalPages
  have h1 : 0 + l - 1 < l := by omega
  exact Nat.div_eq_of_lt h1

lemma getSubscriptions_eq (store : List Subscription) (pageQ limitQ : Option String)
    (p l : Nat) (hp : parsePage pageQ = (p : Int)) (hl : parseLimit limitQ = (l : Int))
    (hp1 : 1 ≤ p) :
    getSubscriptions store pageQ limitQ none none none =
      { data := skipTake
          (store.mergeSort (fun a b => decide (b.subscriptionDate ≤ a.subscriptionDate)))
          ((p - 1) * l) l
        current := (p : Int)
        pages := totalPages store.length l
        total := store.length
        limit := (l : Int) } := by
  have hskip : (((p : Int) - 1) * (l : Int)).toNat = (p - 1) * l := by
    have h1 : ((p : Int) - 1) = ((p - 1 : Nat) : Int) := by omega
    rw [h1, ← Nat.cast_mul, Int.toNat_natCast]
  have hlim : ((l : Int)).toNat = l := Int.toNat_natCast l
  unfold getSubscriptions
  rw [hp, hl]
  simp only [filter_subMatches_none, hskip, hlim]

lemma getContacts_eq (store : List Contact) (pageQ limitQ : Option String)
    (p l : Nat) (hp : parsePage pageQ = (p : Int)) (hl : parseLimit limitQ = (l : Int))
    (hp1 : 1 ≤ p) :
    getContacts store pageQ limitQ none none none =
      { data := skipTake
          (store.mergeSort (fun a b => decide (b.createdAt ≤ a.createdAt)))
          ((p - 1) * l) l
        current := (p : Int)
        pages := totalPages store.length l
        total := store.length
        limit := (l : Int) } := by
  have hskip : (((p : Int) - 1) * (l : Int)).toNat = (p - 1) * l := by
    have h1 : ((p : Int) - 1) = ((p - 1 : Nat) : Int) := by omega
    rw [h1, ← Nat.cast_mul, Int.toNat_natCast]
  have hlim : ((l : Int)).toNat = l := Int.toNat_natCast l
  unfold getContacts
  rw [hp, hl]
  simp only [filter_contactMatches_none, hskip, hlim]

/-- C6: for a list query the pagination metadata satisfies pages equals the
ceiling of total over limit, with 0 pages when the total is 0, and the
returned page is the requested 1-based slice of the sorted match set: its
length is min limit (total - (page-1)*limit) — so 25 matching documents
with limit 10 and page 3 give 5 documents and 3 pages — and a page past
the end is empty rather than an error. -/
theorem pagination_metadata
    (store : List Subscription) (pageQ limitQ : Option String) (p l : Nat)
    (hp : parsePage pageQ = (p : Int)) (hl : parseLimit limitQ = (l : Int))
    (hp1 : 1 ≤ p) (hl1 : 1 ≤ l) :
    (getSubscriptions store pageQ limitQ none none none).total = store.length ∧
    (getSubscriptions store pageQ limitQ none none none).pages =
      ⌈(store.length : ℚ) / (l : ℚ)⌉₊ ∧
    (store.length = 0 → (getSubscriptions store pageQ limitQ none none none).pages = 0) ∧
    (getSubscriptions store pageQ limitQ none none none).data.length =
      min l (store.length - (p - 1) * l) ∧
    (store.length ≤ (p - 1) * l →
      (getSubscriptions store pageQ limitQ none none none).data = []) := by
  rw [getSubscriptions_eq store pageQ limitQ p l hp hl hp1]
  refine ⟨rfl, totalPages_eq_ceil store.length l hl1, ?_, ?_, ?_⟩
  · intro h0
    rw [h0]
    exact totalPages_zero l hl1
  · simp [skipTake, List.length_take, List.length_drop, List.length_mergeSort]
  · intro hle
    have hd : (store.mergeSort
        (fun a b => decide (b.subscriptionDate ≤ a.subscriptionDate))).drop ((p - 1) * l) = [] := by
      apply List.drop_eq_nil_of_le
      rw [List.length_mergeSort]
      exact hle
    simp [skipTake, hd]

/-- C10: a page query parameter that is absent, non-numeric, or parsing to
0 is treated as page 1, and such a limit parameter as 10; the page the two
list endpoints return then skips exactly (page-1)*limit documents of the
sorted match set and takes limit documents. -/
theorem list_param_defaults
    (q : Option String) (hq : jsParseInt q = none ∨ jsParseInt q = some 0)
    (storeS : List Subscription) (storeC : List Contact)
    (pageQ limitQ : Option String) (p l : Nat)
    (hp : parsePage pageQ = (p : Int)) (hl : parseLimit limitQ = (l : Int))
    (hp1 : 1 ≤ p) (_hl1 : 1 ≤ l) :
    parsePage q = 1 ∧ parseLimit q = 10 ∧
    (getSubscriptions storeS pageQ limitQ none none none).data =
      ((storeS.mergeSort (fun a b => decide (b.subscriptionDate ≤ a.subscriptionDate))).drop
        ((p - 1) * l)).take l ∧
    (getContacts storeC pageQ limitQ none none none).data =
      ((storeC.mergeSort (fun a b => decide (b.createdAt ≤ a.createdAt))).drop
        ((p - 1) * l)).take l := by
  refine ⟨?_, ?_, ?_, ?_⟩
  · rcases hq with h | h <;> simp [parsePage, jsOr, h]
  · rcases hq with h | h <;> simp [parseLimit, jsOr, h]
  · rw [getSubscriptions_eq storeS pageQ limitQ p l hp hl hp1]
    rfl
  · rw [getContacts_eq storeC pageQ limitQ p l hp hl hp1]
    rfl

lemma regexMatchAt_no_dot : ∀ (pat s : List Char),
    pat.all (fun ch => ch != '.') = true → regexMatchAt pat s = litMatchAt pat s
  | [], _, _ => rfl
  | _ :: _, [], _ => rfl
  | p :: ps, c :: cs, h => by
    simp only [List.all_cons, Bool.and_eq_true] at h
    have hpd : (p == '.') = false := by
      have h1 := h.1
      simpa using h1
    simp [regexMatchAt, litMatchAt, hpd, regexMatchAt_no_dot ps cs h.2]

lemma regexFound_no_dot : ∀ (pat s : List Char),
    pat.all (fun ch => ch != '.') = true → regexFound pat s = litFound pat s
  | pat, [], h => by
    simp [regexFound, litFound, regexMatchAt_no_dot pat [] h]
  | pat, c :: cs, h => by
    simp [regexFound, litFound, regexMatchAt_no_dot pat (c :: cs) h,
      regexFound_no_dot pat cs h]

/-- C4 amended: the list queries pass the raw search term to the store as a
case-insensitive regex over the defined field set (email for
subscriptions; name, email and phone for contacts); the term is not
escaped, so a term free of regex metacharacters is matched as a literal
substring, but a metacharacter keeps its pattern meaning instead of
matching only itself. -/
theorem search_term_is_regex
    (t : String) (s : Subscription) (c : Contact) (pat str : List Char)
    (hmeta : pat.all (fun ch => ch != '.') = true) :
    subMatches none none (some t) s = regexTest t s.email ∧
    contactMatches none none (some t) c =
      (regexTest t c.name || regexTest t c.email || regexTest t c.phone) ∧
    regexFound pat str = litFound pat str :=
  ⟨rfl, rfl, regexFound_no_dot pat str hmeta⟩

/-! Statistics theorems. -/

lemma count_map_eq_filter_length {α K : Type} [DecidableEq K] (f : α → K)
    (l : List α) (k : K) :
    (l.map f).count k = (l.filter (fun a => f a == k)).length := by
  induction l with
  | nil => rfl
  | cons a t ih =>
    by_cases h : f a = k
    · simp [List.count_cons, List.filter_cons, h, ih]
    · have hb : (f a == k) = false := by simpa using h
      simp [List.count_cons, List.filter_cons, hb, ih, h]

lemma groupCounts_mem_spec {K : Type} [DecidableEq K] (keys : List K) (k : K) (n : Nat)
    (h : (k, n) ∈ groupCounts keys) : 0 < n ∧ n = keys.count k := by
  unfold groupCounts at h
  rw [List.mem_map] at h
  obtain ⟨a, ha, heq⟩ := h
  rw [Prod.ext_iff] at heq
  obtain ⟨h1, h2⟩ := heq
  subst h1
  subst h2
  exact ⟨List.count_pos_iff.mpr (List.mem_dedup.mp ha), rfl⟩

lemma groupCounts_key_mem {K : Type} [DecidableEq K] (keys : List K) (k : K) :
    k ∈ keys ↔ ∃ n, (k, n) ∈ groupCounts keys := by
  unfold groupCounts
  constructor
  · intro hk
    exact ⟨keys.count k, List.mem_map.mpr ⟨k, List.mem_dedup.mpr hk, rfl⟩⟩
  · rintro ⟨n, hn⟩
    rw [List.mem_map] at hn
    obtain ⟨a, ha, heq⟩ := hn
    have hak : a = k := congrArg Prod.fst heq
    subst hak
    exact List.mem_dedup.mp ha

lemma groupCounts_sum {K : Type} [DecidableEq K] (keys : List K) :
    ((groupCounts keys).map Prod.snd).sum = keys.length := by
  unfold groupCounts
  rw [List.map_map]
  have h1 : keys.dedup.toFinset = keys.toFinset := by
    ext a
    simp [List.mem_toFinset, List.mem_dedup]
  have h2 := List.sum_toFinset (fun k => keys.count k) (List.nodup_dedup keys)
  calc ((keys.dedup.map (Prod.snd ∘ fun k => (k, keys.count k)))).sum
      = (keys.dedup.map fun k => keys.count k).sum := rfl
    _ = keys.dedup.toFinset.sum fun k => keys.count k := h2.symm
    _ = keys.toFinset.sum fun k => keys.count k := by rw [h1]
    _ = keys.length := List.sum_toFinset_count_eq_length keys

/-- C7: in the grouped-count statistics (byStatus and byPriority for
contacts, byStatus and bySource for subscriptions) every category value
present in at least one document appears as a group carrying exactly the
number of documents in that category, no zero-count group ever appears,
and the byStatus counts sum to the unfiltered total document count of the
collection. -/
theorem grouped_counts_correct (cstore : List Contact) (sstore : List Subscription) :
    (∀ st n, (st, n) ∈ contactStatsByStatus cstore →
      0 < n ∧ n = (cstore.filter (fun c => c.status == st)).length) ∧
    (∀ st, (∃ c ∈ cstore, c.status = st) ↔ ∃ n, (st, n) ∈ contactStatsByStatus cstore) ∧
    (∀ pr n, (pr, n) ∈ contactStatsByPriority cstore →
      0 < n ∧ n = (cstore.filter (fun c => c.priority == pr)).length) ∧
    (∀ stt n, (stt, n) ∈ subStatsByStatus sstore →
      0 < n ∧ n = (sstore.filter (fun s => s.status == stt)).length) ∧
    (∀ so n, (so, n) ∈ subStatsBySource sstore →
      0 < n ∧ n = (sstore.filter (fun s => s.source == so)).length) ∧
    (∀ stt, (∃ s ∈ sstore, s.status = stt) ↔ ∃ n, (stt, n) ∈ subStatsByStatus sstore) ∧
    ((contactStatsByStatus cstore).map Prod.snd).sum = cstore.length ∧
    ((subStatsByStatus sstore).map Prod.snd).sum = sstore.length := by
  refine ⟨?_, ?_, ?_, ?_, ?_, ?_, ?_, ?_⟩
  · intro st n h
    have hs := groupCounts_mem_spec _ _ _ h
    exact ⟨hs.1, hs.2.trans (count_map_eq_filter_length _ _ _)⟩
  · intro st
    exact (List.mem_map.symm).trans (groupCounts_key_mem _ st)
  · intro pr n h
    have hs := groupCounts_mem_spec _ _ _ h
    exact ⟨hs.1, hs.2.trans (count_map_eq_filter_length _ _ _)⟩
  · intro stt n h
    have hs := groupCounts_mem_spec _ _ _ h
    exact ⟨hs.1, hs.2.trans (count_map_eq_filter_length _ _ _)⟩
  · intro so n h
    have hs := groupCounts_mem_spec _ _ _ h
    exact ⟨hs.1, hs.2.trans (count_map_eq_filter_length _ _ _)⟩
  · intro stt
    exact (List.mem_map.symm).trans (groupCounts_key_mem _ stt)
  · rw [contactStatsByStatus, groupCounts_sum]
    simp
  · rw [subStatsByStatus, groupCounts_sum]
    simp

/-- C3 amended: the engagement summary of getEmailStats is computed over
the rows with status active regardless of verification; it reports the
exact sums of emailsSent, emailsOpened and emailsClicked over those rows,
but its avgEngagementRate is the null the store produces for $avg over the
engagementRate path — a schema virtual, not a stored field — whenever at
least one active row exists; only when no active row exists are all four
fields 0 through the fallback object. -/
theorem engagement_stats_active_rows (store : List Subscription) :
    (engagementStats store).totalEmailsSent =
      ((store.filter (fun s => s.status == SubStatus.active)).map
        (fun s => s.emailsSent)).sum ∧
    (engagementStats store).totalEmailsOpened =
      ((store.filter (fun s => s.status == SubStatus.active)).map
        (fun s => s.emailsOpened)).sum ∧
    (engagementStats store).totalEmailsClicked =
      ((store.filter (fun s => s.status == SubStatus.active)).map
        (fun s => s.emailsClicked)).sum ∧
    ((engagementStats store).avgEngagementRate = none ↔
      store.filter (fun s => s.status == SubStatus.active) ≠ []) ∧
    (store.filter (fun s => s.status == SubStatus.active) = [] →
      engagementStats store =
        { totalEmailsSent := 0, totalEmailsOpened := 0, totalEmailsClicked := 0
          avgEngagementRate := some 0 }) := by
  unfold engagementStats
  by_cases hm : (store.filter (fun s => s.status == SubStatus.active)).isEmpty
  · have hnil : store.filter (fun s => s.status == SubStatus.active) = [] :=
      List.isEmpty_iff.mp hm
    simp [hm, hnil]
  · have hne : store.filter (fun s => s.status == SubStatus.active) ≠ [] := by
      intro hh
      rw [hh] at hm
      exact hm rfl
    have hmf : (store.filter (fun s => s.status == SubStatus.active)).isEmpty = false :=
      Bool.eq_false_iff.mpr hm
    have havg : aggAvg ((store.filter
        (fun s => s.status == SubStatus.active)).map storedEngagementRate) = none := by
      unfold aggAvg
      have hnil2 : ((store.filter
          (fun s => s.status == SubStatus.active)).map storedEngagementRate).filterMap id
          = [] := by
        simp [storedEngagementRate]
      simp [hnil2]
    simp [hmf, havg, hne]

/-! Closed evaluations: counterexamples and witnesses. -/

/-- C1 counterexample: a record with status bounced is not reactivated by
subscribe — the call returns the 500 failure and the store is unchanged,
with the record still non-active, contradicting the claimed reactivation
of every non-active record. -/
theorem subscribe_bounced_not_reactivated :
    (subscribeEmail [wSubBounced] [] "b@c.com" "website-footer"
      PrefPatch.empty none none none 9).statusCode = 500 ∧
    (subscribeEmail [wSubBounced] [] "b@c.com" "website-footer"
      PrefPatch.empty none none none 9).store = [wSubBounced] ∧
    wSubBounced.status ≠ SubStatus.active := by
  decide

/-- C1 witness: reactivation evaluated on an unsubscribed record. -/
theorem subscribe_reactivation_witness :
    (subscribeEmail [wSubU] [] "u@x.de" "website-popup"
      { newsletters := none, promotions := some false, updates := none, events := none }
      (some "1.2.3.4") none none 9).statusCode = 200 ∧
    (subscribeEmail [wSubU] [] "u@x.de" "website-popup"
      { newsletters := none, promotions := some false, updates := none, events := none }
      (some "1.2.3.4") none none 9).success = true := by
  have h := (subscribe_reactivation [wSubU] "u@x.de" "website-popup"
    { newsletters := none, promotions := some false, updates := none, events := none }
    (some "1.2.3.4") none none 9 wSubU (by decide)).1 rfl
  exact ⟨h.1, h.2.1⟩

/-- C2 counterexample: an insert racing with an identical concurrent insert
is answered with the generic 500 failure, not the 409 conflict the claim
requires. -/
theorem subscribe_race_returns_500 :
    (subscribeEmail [] [wSubC] "c@d.com" "website-footer"
      PrefPatch.empty none none none 4).statusCode = 500 ∧
    ¬ (subscribeEmail [] [wSubC] "c@d.com" "website-footer"
      PrefPatch.empty none none none 4).statusCode = 409 := by
  decide

/-- C2 witness: the amended duplicate-insert behaviour on a concrete race. -/
theorem subscribe_duplicate_insert_is_500_witness :
    subscribeEmail [] [wSubA] "a@b.com" "website-footer"
      PrefPatch.empty none none none 4 =
      { statusCode := 500, success := false
        message := "Failed to subscribe. Please try again later."
        store := [] ++ [wSubA] } ∧
    (subscribeEmail [] [wSubA] "a@b.com" "website-footer"
      PrefPatch.empty none none none 4).statusCode ≠ 409 :=
  subscribe_duplicate_insert_is_500 [] [wSubA] "a@b.com" "website-footer"
    PrefPatch.empty none none none 4 rfl (by decide)

/-- C3 counterexample: one active but unverified row with 50 sent and 10
opened emails — the code sums it (it only matches on status) and reports a
null average because engagementRate is not a stored field, while the
claimed summary excludes the row and would report zeros with a numeric
mean. -/
theorem engagement_stats_counterexample :
    engagementStats [wSubUnverified] ≠ claimedEngagementStats [wSubUnverified] ∧
    (engagementStats [wSubUnverified]).totalEmailsSent = 50 ∧
    (engagementStats [wSubUnverified]).avgEngagementRate = none ∧
    (claimedEngagementStats [wSubUnverified]).totalEmailsSent = 0 := by
  decide

/-- C3 witness: the no-active-rows fallback of the amended theorem. -/
theorem engagement_stats_active_rows_witness :
    engagementStats ([] : List Subscription) =
      { totalEmailsSent := 0, totalEmailsOpened := 0, totalEmailsClicked := 0
        avgEngagementRate := some 0 } :=
  (engagement_stats_active_rows []).2.2.2.2 rfl

/-- C4 counterexample: the term a.c matches the email abc@xyz.de through
the subscriptions search query even though a.c does not occur literally in
it — the dot acts as a regex metacharacter, so the term is not matched
literally. -/
theorem search_dot_counterexample :
    subMatches none none (some "a.c") wSubSearch = true ∧
    literalTest "a.c" "abc@xyz.de" = false := by
  decide

/-- C4 witness: the amended regex-search behaviour on concrete inputs. -/
theorem search_term_is_regex_witness :
    subMatches none none (some "abc") wSubSearch = regexTest "abc" wSubSearch.email ∧
    regexFound "abc".data "zabcq".data = litFound "abc".data "zabcq".data := by
  have h := search_term_is_regex "abc" wSubSearch wContact1 "abc".data "zabcq".data
    (by decide)
  exact ⟨h.1, h.2.2⟩

/-- C5 witness: the conflict behaviour evaluated on an active record. -/
theorem subscribe_active_conflict_no_mutation_witness :
    subscribeEmail [wSubA] [] "a@b.com" "manual" PrefPatch.empty none none none 5 =
      { statusCode := 409, success := false
        message := "This email is already subscribed to our newsletter"
        store := [wSubA] } :=
  subscribe_active_conflict_no_mutation [wSubA] "a@b.com" "manual"
    PrefPatch.empty none none none 5 wSubA (by decide) (by decide)

/-- C6 witness: 25 documents with limit 10: page 3 holds 5 documents and
there are 3 pages; page 30 is empty. -/
theorem pagination_metadata_witness :
    (getSubscriptions sampleStore (some "3") (some "10") none none none).data.length = 5 ∧
    (getSubscriptions sampleStore (some "3") (some "10") none none none).pages = 3 ∧
    (getSubscriptions sampleStore (some "30") (some "10") none none none).data = [] := by
  have hlen : sampleStore.length = 25 := by simp [sampleStore]
  have h := pagination_metadata sampleStore (some "3") (some "10") 3 10
    (by decide) (by decide) (by omega) (by omega)
  have h2 := pagination_metadata sampleStore (some "30") (some "10") 30 10
    (by decide) (by decide) (by omega) (by omega)
  refine ⟨?_, ?_, ?_⟩
  · rw [h.2.2.2.1, hlen]
    decide
  · rw [h.2.1, hlen]
    rw [Nat.ceil_eq_iff (by norm_num)]
    norm_num
  · exact h2.2.2.2.2 (by rw [hlen]; omega)

/-- C7 witness: grouped counts over two contacts sharing the status new. -/
theorem grouped_counts_correct_witness :
    (0 < 2 ∧ 2 = ([wContact1, wContact2].filter (fun c => c.status == "new")).length) ∧
    ((contactStatsByStatus [wContact1, wContact2]).map Prod.snd).sum = 2 := by
  have h := grouped_counts_correct [wContact1, wContact2] []
  refine ⟨h.1 "new" 2 (by decide), ?_⟩
  have h2 := h.2.2.2.2.2.2.1
  simpa using h2

/-- C8 witness: a concrete creation carries exactly one note. -/
theorem createContact_single_system_note_witness :
    ((createContact [] "Ann" "ann@x.de" "1234567890" "Need valet parking"
      none none 5).data.map (fun c => c.notes.length)) = some 1 := by
  obtain ⟨c, hdata, _, hlen, _⟩ := createContact_single_system_note []
    "Ann" "ann@x.de" "1234567890" "Need valet parking" none none 5 rfl
  rw [hdata]
  simp [hlen]

/-- C9 counterexample: a present but empty reason string is replaced by the
default User requested, so the stored reason is not the given reason. -/
theorem unsubscribe_empty_reason_counterexample :
    (unsubscribeEmail [wSubA] "a@b.com" (some "") 7).store =
      [{ wSubA with
          status := SubStatus.unsubscribed
          unsubscriptionDate := some 7
          unsubscriptionReason := some "User requested" }] ∧
    ("User requested" : String) ≠ "" := by
  decide

/-- C9 witness: the amended unsubscribe behaviour on an active record. -/
theorem unsubscribe_behaviour_witness :
    (unsubscribeEmail [wSubA] "a@b.com" none 7).statusCode = 200 := by
  have h := (unsubscribe_behaviour [wSubA] "a@b.com" none 7).2.2 wSubA
    (by decide) (by decide)
  exact h.1

/-- C10 witness: defaulting of absent, non-numeric and zero parameters, and
the skip of (page-1)*limit documents for concrete parameters. -/
theorem list_param_defaults_witness :
    parsePage (some "abc") = 1 ∧ parseLimit (some "abc") = 10 ∧
    parsePage none = 1 ∧ parsePage (some "0") = 1 ∧
    (getSubscriptions [wSubA] (some "2") (some "5") none none none).data =
      (([wSubA].mergeSort (fun a b => decide (b.subscriptionDate ≤ a.subscriptionDate))).drop
        ((2 - 1) * 5)).take 5 := by
  have h1 := list_param_defaults (some "abc") (Or.inl (by decide)) [wSubA] [wContact1]
    (some "2") (some "5") 2 5 (by decide) (by decide) (by omega) (by omega)
  have h2 := list_param_defaults none (Or.inl rfl) [wSubA] [wContact1]
    (some "2") (some "5") 2 5 (by decide) (by decide) (by omega) (by omega)
  have h3 := list_param_defaults (some "0") (Or.inr (by decide)) [wSubA] [wContact1]
    (some "2") (some "5") 2 5 (by decide) (by decide) (by omega) (by omega)
  exact ⟨h1.1, h1.2.1, h2.1, h3.1, h1.2.2.1⟩

end Royavalet
